import Mathlib

/-!
Verification of the rate-limiting chat proxy in `netlify/functions/chat.js`.

The development shallowly embeds the handler's stages:
* the usage-record rate limiter `enforceRateLimit` over the Netlify blob
  store, with the store's failure modes made explicit in a `RateEnv`;
* the identity resolution (`userId` → client IP → `"anonymous"`) and the
  SHA-256 based store key;
* the upstream request builder `buildOpenAiRequest`;
* the mapping from upstream fetch outcomes to HTTP responses.

JavaScript truthiness on strings (`""` is falsy) and on record fields is
translated explicitly wherever the source relies on it.
-/

/-- `RATE_LIMIT` constant from chat.js line 9. -/
def RATE_LIMIT : Nat := 20

/-- `RATE_LIMIT_WINDOW_MS = 7 * 24 * 60 * 60 * 1000` (one week), chat.js line 10. -/
def RATE_LIMIT_WINDOW_MS : Nat := 7 * 24 * 60 * 60 * 1000

/-- Milliseconds per day, the divisor `24 * 60 * 60 * 1000` in chat.js line 199. -/
def MS_PER_DAY : Nat := 24 * 60 * 60 * 1000

/-- A usage record as stored in the `chat-rate-limit` blob store:
`{ count, resetAt }` (chat.js lines 209-214 and 227-232).
Timestamps are naturals (milliseconds since epoch, as produced by `Date.now()`). -/
structure UsageRecord where
  count : Nat
  resetAt : Nat
deriving DecidableEq, Repr

/-- The environment a single `enforceRateLimit(hashedUser)` call runs in.
The blob store's behaviour is made explicit:
* `initFails`: `getStore(RATE_LIMIT_STORE)` throws (caught at chat.js line 171);
* `getThrows`: `store.get` throws synchronously (caught at chat.js line 187);
* `getRejects`: the `store.get` promise rejects, which the inline
  `.catch(() => null)` at chat.js line 186 converts to `null`;
* `setFails`: `store.set` throws (caught at chat.js lines 216 and 234);
* `record`: the stored record under the caller's key (`none` when absent);
* `now`: the value of `Date.now()` at chat.js line 181. -/
structure RateEnv where
  initFails : Bool
  getThrows : Bool
  getRejects : Bool
  setFails : Bool
  record : Option UsageRecord
  now : Nat
deriving DecidableEq, Repr

/-- Outcome of `enforceRateLimit`: a normal return (request allowed) or the
thrown `Error` carrying `statusCode` 429 and a message (chat.js lines 200-204). -/
inductive RateOutcome where
  | allow
  | reject (statusCode : Nat) (message : String)
deriving DecidableEq, Repr

/-- The message built at chat.js line 201:
`Rate limit exceeded. You can try again in ${days} day(s).` -/
def rateLimitMessage (days : Nat) : String :=
  s!"Rate limit exceeded. You can try again in {days} day(s)."

/-- `Math.ceil(msLeft / (24*60*60*1000))` for a natural `msLeft` (chat.js line 199). -/
def daysUntilReset (msLeft : Nat) : Nat :=
  (msLeft + MS_PER_DAY - 1) / MS_PER_DAY

/-- Result of one `enforceRateLimit` call: its outcome, the record stored under
the caller's key afterwards, and whether a `store.set` was attempted. -/
structure RateResult where
  outcome : RateOutcome
  stored : Option UsageRecord
  setAttempted : Bool
deriving DecidableEq, Repr

/-- The `store.set(key, {count: 1, resetAt: now + RATE_LIMIT_WINDOW_MS})` block
opening a fresh window, chat.js lines 226-239; a throwing `set` is caught and
leaves the store unchanged. -/
def freshWindow (env : RateEnv) : RateResult :=
  if env.setFails then ⟨.allow, env.record, true⟩
  else ⟨.allow, some ⟨1, env.now + RATE_LIMIT_WINDOW_MS⟩, true⟩

/-- `enforceRateLimit(hashedUser)`, chat.js lines 166-240.

Control flow follows the source: a failing `getStore` or a synchronously
throwing `store.get` returns early (no enforcement, store untouched); a
rejected `get` promise is collapsed to `null` by the inline `.catch`; a record
with a still-active window (`record && record.resetAt && record.resetAt > now`,
i.e. `resetAt ≠ 0 ∧ now < resetAt`) is either rejected with a 429 error when
`count >= RATE_LIMIT`, or re-stored with `count + 1` and the same `resetAt`;
otherwise a fresh window `{count: 1, resetAt: now + RATE_LIMIT_WINDOW_MS}` is
written. -/
def enforceRateLimit (env : RateEnv) : RateResult :=
  if env.initFails then ⟨.allow, env.record, false⟩
  else if env.getThrows then ⟨.allow, env.record, false⟩
  else
    match (if env.getRejects then none else env.record) with
    | some r =>
      if r.resetAt ≠ 0 ∧ env.now < r.resetAt then
        if RATE_LIMIT ≤ r.count then
          ⟨.reject 429 (rateLimitMessage (daysUntilReset (r.resetAt - env.now))),
            env.record, false⟩
        else if env.setFails then ⟨.allow, env.record, true⟩
        else ⟨.allow, some ⟨r.count + 1, r.resetAt⟩, true⟩
      else freshWindow env
    | none => freshWindow env

/-- What the handler does with the rate limiter's outcome (chat.js lines 80-94):
a thrown error with a `statusCode` becomes the response
`{statusCode, body: {error: message}}`; a normal return proceeds to the
upstream call. -/
inductive RateDecision where
  | proceed
  | respond (statusCode : Nat) (errorMessage : String)
deriving DecidableEq, Repr

/-- The `try { await enforceRateLimit(...) } catch (rateErr) {...}` stage of the
handler, chat.js lines 80-94. Only the 429 error built at chat.js line 200
carries a `statusCode`; every store failure is already absorbed inside
`enforceRateLimit`, so the `console.warn` fallback proceeds. -/
def handlerRateStage (env : RateEnv) : RateDecision :=
  match (enforceRateLimit env).outcome with
  | .reject code msg => .respond code msg
  | .allow => .proceed

/-- A chat message `{role, content}` as sent to the OpenAI API. -/
structure ChatMessage where
  role : String
  content : String
deriving DecidableEq, Repr

/-- The JSON body of an incoming request, with the fields the handler reads
(chat.js lines 59, 69-70, 243-264). `none` models an absent field (or a field
of the wrong JavaScript type, for the `typeof`-guarded fields `userId` and
`temperature`). Temperatures are rationals: the claims under verification
only pass them through. -/
structure Payload where
  message : Option String
  messages : Option (List ChatMessage)
  model : Option String
  systemPrompt : Option String
  temperature : Option ℚ
  userId : Option String
deriving DecidableEq, Repr

/-- JavaScript `a || b` for an optional string `a` (absent or empty ⇒ falsy). -/
def jsOr (a : Option String) (b : String) : String :=
  match a with
  | some s => if s = "" then b else s
  | none => b

/-- `OPENAI_MODEL` (chat.js line 7) with the `OPENAI_MODEL` environment
variable unset: the default model name. -/
def OPENAI_MODEL : String := "gpt-4o-mini"

/-- The default system prompt at chat.js lines 258-259. -/
def DEFAULT_SYSTEM_PROMPT : String :=
  "You are a helpful assistant that responds briefly and professionally."

/-- The request body sent to the OpenAI API: `{model, messages, temperature}`
(chat.js lines 244-249 and 252-265). -/
structure OpenAiRequest where
  model : String
  messages : List ChatMessage
  temperature : ℚ
deriving DecidableEq, Repr

/-- `typeof payload.temperature === "number" ? payload.temperature : 0.7`
(chat.js lines 247-248 and 263-264). -/
def temperatureOf (p : Payload) : ℚ :=
  match p.temperature with
  | some t => t
  | none => 7 / 10

/-- `buildOpenAiRequest(payload, userMessage)`, chat.js lines 242-266.
The first branch fires on `Array.isArray(payload.messages) &&
payload.messages.length > 0`; otherwise a two-turn conversation is
synthesized from `payload.systemPrompt || <default>` and the user message. -/
def buildOpenAiRequest (p : Payload) (userMessage : String) : OpenAiRequest :=
  match p.messages with
  | some msgs =>
    if msgs.length > 0 then
      ⟨jsOr p.model OPENAI_MODEL, msgs, temperatureOf p⟩
    else
      ⟨jsOr p.model OPENAI_MODEL,
        [⟨"system", jsOr p.systemPrompt DEFAULT_SYSTEM_PROMPT⟩,
         ⟨"user", userMessage⟩],
        temperatureOf p⟩
  | none =>
    ⟨jsOr p.model OPENAI_MODEL,
      [⟨"system", jsOr p.systemPrompt DEFAULT_SYSTEM_PROMPT⟩,
       ⟨"user", userMessage⟩],
      temperatureOf p⟩

/-- The proxy headers the handler consults (chat.js lines 154-158); `none`
models an absent header. -/
structure RequestEvent where
  xForwardedFor : Option String
  clientIp : Option String
  xRealIp : Option String
deriving DecidableEq, Repr

/-- JavaScript `String.prototype.trim()`: strips whitespace from both ends.
Defined over the character list so that it evaluates by kernel reduction
(Lean's own `String.trim` is defined by well-founded recursion and does not). -/
def jsTrim (s : String) : String :=
  String.mk (((s.toList.dropWhile Char.isWhitespace).reverse.dropWhile
    Char.isWhitespace).reverse)

/-- `s.split(sep)[0]`: the prefix of `s` before the first occurrence of the
separator character (the whole string when the separator does not occur). -/
def jsSplitFirst (s : String) (sep : Char) : String :=
  String.mk (s.toList.takeWhile (fun c => c != sep))

/-- JavaScript truthiness filter on an optional string: keeps it only when
present and non-empty. -/
def truthy (a : Option String) : Option String :=
  match a with
  | some s => if s = "" then none else some s
  | none => none

/-- `getClientIp(event)`, chat.js lines 153-159: the first comma-separated
entry of `x-forwarded-for` (trimmed) when that header is truthy, else
`client-ip || x-real-ip || null`. -/
def getClientIp (e : RequestEvent) : Option String :=
  match truthy e.xForwardedFor with
  | some f => some (jsTrim (jsSplitFirst f ','))
  | none =>
    match truthy e.clientIp with
    | some c => some c
    | none => truthy e.xRealIp

/-- The resolved rate-limit identity, chat.js lines 69-72:
`(typeof payload.userId === "string" && payload.userId.trim()) ||
getClientIp(event) || "anonymous"`. -/
def userIdentifier (p : Payload) (e : RequestEvent) : String :=
  match p.userId with
  | some u =>
    if jsTrim u = "" then jsOr (getClientIp e) "anonymous"
    else jsTrim u
  | none => jsOr (getClientIp e) "anonymous"

/-! ### SHA-256

`crypto.createHash("sha256").update(userIdentifier).digest("hex")`
(chat.js lines 74-77) is modelled by a full executable SHA-256 (FIPS 180-4)
over the UTF-8 bytes of the identity, with 32-bit words as naturals reduced
modulo `2^32`. -/

/-- UTF-8 bytes of a string, as naturals. -/
def strBytes (s : String) : List Nat :=
  s.toUTF8.toList.map (fun b => b.toNat)

/-- Addition modulo `2^32`. -/
def add32 (a b : Nat) : Nat := (a + b) % 4294967296

/-- Right rotation of a 32-bit word. -/
def rotr32 (x n : Nat) : Nat := ((x >>> n) ||| (x <<< (32 - n))) % 4294967296

/-- σ₀ message-schedule function. -/
def smallSigma0 (x : Nat) : Nat := rotr32 x 7 ^^^ rotr32 x 18 ^^^ (x >>> 3)

/-- σ₁ message-schedule function. -/
def smallSigma1 (x : Nat) : Nat := rotr32 x 17 ^^^ rotr32 x 19 ^^^ (x >>> 10)

/-- Σ₀ compression function. -/
def bigSigma0 (x : Nat) : Nat := rotr32 x 2 ^^^ rotr32 x 13 ^^^ rotr32 x 22

/-- Σ₁ compression function. -/
def bigSigma1 (x : Nat) : Nat := rotr32 x 6 ^^^ rotr32 x 11 ^^^ rotr32 x 25

/-- The 64 SHA-256 round constants (FIPS 180-4 §4.2.2), written in decimal. -/
def sha256K : List Nat :=
  [1116352408, 1899447441, 3049323471, 3921009573,
   961987163, 1508970993, 2453635748, 2870763221,
   3624381080, 310598401, 607225278, 1426881987,
   1925078388, 2162078206, 2614888103, 3248222580,
   3835390401, 4022224774, 264347078, 604807628,
   770255983, 1249150122, 1555081692, 1996064986,
   2554220882, 2821834349, 2952996808, 3210313671,
   3336571891, 3584528711, 113926993, 338241895,
   666307205, 773529912, 1294757372, 1396182291,
   1695183700, 1986661051, 2177026350, 2456956037,
   2730485921, 2820302411, 3259730800, 3345764771,
   3516065817, 3600352804, 4094571909, 275423344,
   430227734, 506948616, 659060556, 883997877,
   958139571, 1322822218, 1537002063, 1747873779,
   1955562222, 2024104815, 2227730452, 2361852424,
   2428436474, 2756734187, 3204031479, 3329325298]

/-- SHA-256 padding: append `0x80`, zeros to 56 mod 64, then the bit length
as eight big-endian bytes. -/
def sha256Pad (msg : List Nat) : List Nat :=
  let len := msg.length
  let zeros := (120 - (len + 1) % 64) % 64
  msg ++ [0x80] ++ List.replicate zeros 0 ++
    (List.range 8).map (fun i => ((len * 8) >>> (56 - 8 * i)) % 256)

/-- The 16 big-endian 32-bit words of one 64-byte chunk. -/
def chunkWords (chunk : List Nat) : Array Nat :=
  ((List.range 16).map (fun i =>
    (chunk.getD (4 * i) 0) <<< 24 ||| (chunk.getD (4 * i + 1) 0) <<< 16 |||
    (chunk.getD (4 * i + 2) 0) <<< 8 ||| chunk.getD (4 * i + 3) 0)).toArray

/-- Extends the 16 chunk words to the 64-word message schedule. -/
def sha256Schedule (w : Array Nat) : Array Nat :=
  (List.range 48).foldl (fun w j =>
    w.push (add32 (add32 (smallSigma1 (w.getD (j + 14) 0)) (w.getD (j + 9) 0))
                  (add32 (smallSigma0 (w.getD (j + 1) 0)) (w.getD j 0)))) w

/-- The eight 32-bit working variables of SHA-256. -/
structure Sha256State where
  a : Nat
  b : Nat
  c : Nat
  d : Nat
  e : Nat
  f : Nat
  g : Nat
  h : Nat
deriving DecidableEq, Repr

/-- One SHA-256 compression round. -/
def sha256Round (s : Sha256State) (k w : Nat) : Sha256State :=
  let ch := (s.e &&& s.f) ^^^ ((4294967295 ^^^ s.e) &&& s.g)
  let t1 := add32 (add32 (add32 s.h (bigSigma1 s.e)) (add32 ch k)) w
  let maj := (s.a &&& s.b) ^^^ (s.a &&& s.c) ^^^ (s.b &&& s.c)
  let t2 := add32 (bigSigma0 s.a) maj
  ⟨add32 t1 t2, s.a, s.b, s.c, add32 s.d t1, s.e, s.f, s.g⟩

/-- Processes one 64-byte chunk. -/
def sha256Chunk (st : Sha256State) (chunk : List Nat) : Sha256State :=
  let ws := sha256Schedule (chunkWords chunk)
  let r := (List.range 64).foldl
    (fun s i => sha256Round s (sha256K.getD i 0) (ws.getD i 0)) st
  ⟨add32 st.a r.a, add32 st.b r.b, add32 st.c r.c, add32 st.d r.d,
   add32 st.e r.e, add32 st.f r.f, add32 st.g r.g, add32 st.h r.h⟩

/-- The SHA-256 initial hash value (FIPS 180-4 §5.3.3), written in decimal. -/
def sha256InitState : Sha256State :=
  ⟨1779033703, 3144134277, 1013904242, 2773480762,
   1359893119, 2600822924, 528734635, 1541459225⟩

/-- SHA-256 digest of a byte list, as the final eight-word state. -/
def sha256Digest (msg : List Nat) : Sha256State :=
  let padded := sha256Pad msg
  (List.range (padded.length / 64)).foldl
    (fun st i => sha256Chunk st ((padded.drop (64 * i)).take 64)) sha256InitState

/-- Lower-case hex digit for `n < 16`. -/
def hexDigit (n : Nat) : Char :=
  if n < 10 then Char.ofNat (48 + n) else Char.ofNat (87 + n)

/-- Eight lower-case hex digits of a 32-bit word, most significant first. -/
def toHex8 (n : Nat) : String :=
  String.mk ((List.range 8).map (fun i => hexDigit ((n >>> (28 - 4 * i)) % 16)))

/-- `crypto.createHash("sha256").update(s).digest("hex")`: the 64-character
lower-case hex SHA-256 digest of a string. -/
def sha256Hex (s : String) : String :=
  let d := sha256Digest (strBytes s)
  toHex8 d.a ++ toHex8 d.b ++ toHex8 d.c ++ toHex8 d.d ++
  toHex8 d.e ++ toHex8 d.f ++ toHex8 d.g ++ toHex8 d.h

/-- `hashedUser`, chat.js lines 74-77. -/
def hashedUser (p : Payload) (e : RequestEvent) : String :=
  sha256Hex (userIdentifier p e)

/-- The blob-store key `` `user-${hashedUser}` ``, chat.js line 180. -/
def rateLimitKey (hashed : String) : String := "user-" ++ hashed

/-- The store key actually used for a request's quota lookup. -/
def storeKey (p : Payload) (e : RequestEvent) : String :=
  rateLimitKey (hashedUser p e)

/-! ### Upstream response handling (chat.js lines 98-150, 268-275) -/

/-- The body of an upstream response, as seen through `JSON.parse`:
* `jsonObj errMessage content`: a JSON object; `errMessage` is the value of
  the `error.message` chain when it is a string (`none` when the chain is
  absent), `content` the value of `choices[0].message.content` when present;
* `jsonStr s`: the body parses to a JSON string;
* `jsonOther`: the body parses to some other JSON value (number, array, ...);
* `notJson raw`: `JSON.parse` throws, leaving the raw body text. -/
inductive BodyVal where
  | jsonObj (errMessage : Option String) (content : Option String)
  | jsonStr (s : String)
  | jsonOther
  | notJson (raw : String)
deriving DecidableEq, Repr

/-- Outcome of the `fetch` to the OpenAI API: a network-level failure (the
`fetch` promise rejects), or a response with a status code, status text and
body. -/
inductive UpstreamOutcome where
  | networkFailure
  | response (status : Nat) (statusText : String) (body : BodyVal)
deriving DecidableEq, Repr

/-- The body of the handler's HTTP response: the success shape
`{reply, usage, model}` (tracked by its `reply` field) or the error shape
`{error, ...}` (tracked by its `error` field). -/
inductive ReplyBody where
  | success (reply : String)
  | failure (error : String)
deriving DecidableEq, Repr

/-- An HTTP response from the handler: status code and body. -/
structure HttpReply where
  statusCode : Nat
  body : ReplyBody
deriving DecidableEq, Repr

/-- `response.ok`: status in the inclusive range 200-299. -/
def respOk (status : Nat) : Bool := 200 ≤ status && status ≤ 299

/-- The error text for a non-2xx upstream response, chat.js lines 109-123:
`maybeJson` (chat.js lines 268-275) yields the parsed body or the raw text,
then `(errorBody && errorBody.error && errorBody.error.message) ||
(typeof errorBody === "string" ? errorBody : null) || response.statusText`,
and finally `openAiMessage || "Upstream OpenAI API error"`. -/
def upstreamErrorText (body : BodyVal) (statusText : String) : String :=
  let fromChain : Option String :=
    match body with
    | .jsonObj (some m) _ => if m = "" then none else some m
    | _ => none
  let fromStr : Option String :=
    match body with
    | .jsonStr s => if s = "" then none else some s
    | .notJson s => if s = "" then none else some s
    | _ => none
  let fromStatusText : Option String :=
    if statusText = "" then none else some statusText
  (((fromChain.orElse fun _ => fromStr).orElse fun _ => fromStatusText).getD
    "Upstream OpenAI API error")

/-- The fixed response of the handler's `catch` block, chat.js lines 141-150. -/
def unreachableReply : HttpReply :=
  ⟨502, .failure "Failed to reach OpenAI. Please try again later."⟩

/-- The `reply` field of a successful response, chat.js line 136:
`data.choices?.[0]?.message?.content?.trim() || ""`. -/
def successReply (body : BodyVal) : String :=
  match body with
  | .jsonObj _ (some s) => jsTrim s
  | _ => ""

/-- The `try { fetch ... } catch` stage of the handler, chat.js lines 98-150:
a rejected `fetch` lands in the catch block (502 fixed message); a non-ok
response is mapped to its own status with the best-effort error text; an ok
response whose body fails `response.json()` also lands in the catch block;
an ok JSON response yields 200 with the trimmed reply text. -/
def handleUpstream (o : UpstreamOutcome) : HttpReply :=
  match o with
  | .networkFailure => unreachableReply
  | .response status statusText body =>
    if respOk status then
      match body with
      | .notJson _ => unreachableReply
      | _ => ⟨200, .success (successReply body)⟩
    else
      ⟨status, .failure (upstreamErrorText body statusText)⟩

/-! ### Claims -/

/-- C1: for every request whose stored usage record has `resetAt` strictly in
the future and `count` at or above the limit of 20, the handler responds with
status 429 and the error message containing the number of days until reset,
computed as the remaining milliseconds divided by one day rounded up — a
positive day count. -/
theorem c1_over_limit_rejected_with_429_and_days (env : RateEnv) (r : UsageRecord)
    (hInit : env.initFails = false) (hGetT : env.getThrows = false)
    (hGetR : env.getRejects = false)
    (hRec : env.record = some r) (hActive : env.now < r.resetAt)
    (hCount : 20 ≤ r.count) :
    handlerRateStage env =
      .respond 429 (rateLimitMessage (daysUntilReset (r.resetAt - env.now))) ∧
    0 < daysUntilReset (r.resetAt - env.now) := by
  have hne : r.resetAt ≠ 0 := by omega
  have hlim : RATE_LIMIT ≤ r.count := hCount
  constructor
  · simp [handlerRateStage, enforceRateLimit, hInit, hGetT, hGetR, hRec, hActive,
      hne, hlim]
  · have hms : MS_PER_DAY = 86400000 := by norm_num [MS_PER_DAY]
    simp only [daysUntilReset, hms]
    omega

/-- Witness for C1: the 21st request one millisecond before reset is rejected
with a one-day wait. -/
theorem c1_witness :
    handlerRateStage ⟨false, false, false, false, some ⟨20, 101⟩, 100⟩ =
      .respond 429 (rateLimitMessage (daysUntilReset (101 - 100))) ∧
    0 < daysUntilReset (101 - 100) :=
  c1_over_limit_rejected_with_429_and_days
    ⟨false, false, false, false, some ⟨20, 101⟩, 100⟩ ⟨20, 101⟩
    rfl rfl rfl rfl (by norm_num) (by norm_num)

/-- C2: an allowed request within an active window and under the limit writes
back the record with `count` incremented by exactly 1 and `resetAt`
unchanged. -/
theorem c2_increment_preserves_reset (env : RateEnv) (r : UsageRecord)
    (hInit : env.initFails = false) (hGetT : env.getThrows = false)
    (hGetR : env.getRejects = false) (hSet : env.setFails = false)
    (hRec : env.record = some r) (hActive : env.now < r.resetAt)
    (hCount : r.count < 20) :
    (enforceRateLimit env).outcome = .allow ∧
    (enforceRateLimit env).stored = some ⟨r.count + 1, r.resetAt⟩ := by
  have hne : r.resetAt ≠ 0 := by omega
  have hnl : ¬ RATE_LIMIT ≤ r.count := by simp [RATE_LIMIT]; omega
  simp [enforceRateLimit, hInit, hGetT, hGetR, hSet, hRec, hActive, hne, hnl]

/-- Witness for C2: count 5 becomes 6, reset time 100 is kept. -/
theorem c2_witness :
    (enforceRateLimit ⟨false, false, false, false, some ⟨5, 100⟩, 50⟩).outcome =
      .allow ∧
    (enforceRateLimit ⟨false, false, false, false, some ⟨5, 100⟩, 50⟩).stored =
      some ⟨5 + 1, 100⟩ :=
  c2_increment_preserves_reset ⟨false, false, false, false, some ⟨5, 100⟩, 50⟩
    ⟨5, 100⟩ rfl rfl rfl rfl rfl (by norm_num) (by norm_num)

/-- C3: a request with no stored record, or whose record has expired
(`resetAt` at or before the request time), is allowed and a new record
`{count := 1, resetAt := now + 604800000}` (seven days) is written,
regardless of the prior count. -/
theorem c3_fresh_window_on_missing_or_expired (env : RateEnv)
    (hInit : env.initFails = false) (hGetT : env.getThrows = false)
    (hGetR : env.getRejects = false) (hSet : env.setFails = false)
    (hRec : env.record = none ∨ ∃ r, env.record = some r ∧ r.resetAt ≤ env.now) :
    (enforceRateLimit env).outcome = .allow ∧
    (enforceRateLimit env).stored = some ⟨1, env.now + 604800000⟩ := by
  have hW : RATE_LIMIT_WINDOW_MS = 604800000 := by norm_num [RATE_LIMIT_WINDOW_MS]
  rcases hRec with hNone | ⟨r, hSome, hExp⟩
  · simp [enforceRateLimit, freshWindow, hInit, hGetT, hGetR, hSet, hNone, hW]
  · have hcond : ¬(r.resetAt ≠ 0 ∧ env.now < r.resetAt) := by omega
    simp [enforceRateLimit, freshWindow, hInit, hGetT, hGetR, hSet, hSome, hcond, hW]

/-- Witness for C3: a first request at time 1000 opens the window
`{count := 1, resetAt := 1000 + 604800000}`. -/
theorem c3_witness :
    (enforceRateLimit ⟨false, false, false, false, none, 1000⟩).outcome = .allow ∧
    (enforceRateLimit ⟨false, false, false, false, none, 1000⟩).stored =
      some ⟨1, 1000 + 604800000⟩ :=
  c3_fresh_window_on_missing_or_expired ⟨false, false, false, false, none, 1000⟩
    rfl rfl rfl rfl (Or.inl rfl)

/-- C4: store failures are fail-open. A failing store initialization or a
failing read lets the request proceed; a write is only ever attempted on a
path that allows the request (so a write failure cannot block it); and the
only rejection the rate-limit stage can produce is the legitimate over-quota
429, on a healthy read path. -/
theorem c4_fail_open_never_surfaced (env : RateEnv) :
    (env.initFails = true ∨ env.getThrows = true ∨ env.getRejects = true →
      handlerRateStage env = .proceed) ∧
    ((enforceRateLimit env).setAttempted = true →
      (enforceRateLimit env).outcome = .allow) ∧
    (∀ code msg, handlerRateStage env = .respond code msg →
      code = 429 ∧ env.initFails = false ∧ env.getThrows = false ∧
      env.getRejects = false ∧
      ∃ r, env.record = some r ∧ env.now < r.resetAt ∧ 20 ≤ r.count) := by
  obtain ⟨i, gt, gr, sf, rec, now⟩ := env
  cases i <;> cases gt <;> cases gr <;> cases sf <;>
    rcases rec with _ | ⟨c, ra⟩ <;>
      simp [handlerRateStage, enforceRateLimit, freshWindow, RATE_LIMIT] <;>
        split_ifs <;> simp_all

/-- Witness for C4: with a failing store initialization, even an over-quota
record does not block the request. -/
theorem c4_witness :
    handlerRateStage ⟨true, false, false, false, some ⟨25, 999⟩, 10⟩ = .proceed :=
  (c4_fail_open_never_surfaced ⟨true, false, false, false, some ⟨25, 999⟩, 10⟩).1
    (Or.inl rfl)

/-- C5: invariant on stored records. The stored record is an increment of the
prior one only if the request time was strictly before the prior `resetAt`;
and when the request time is at or after `resetAt` (store healthy), the
record is replaced by the fresh window `{count := 1, resetAt := now + window}`
rather than incremented. -/
theorem c5_increment_only_in_active_window (env : RateEnv) (r : UsageRecord)
    (hRec : env.record = some r) :
    ((enforceRateLimit env).stored = some ⟨r.count + 1, r.resetAt⟩ →
      env.now < r.resetAt) ∧
    (env.initFails = false → env.getThrows = false → env.getRejects = false →
      env.setFails = false → r.resetAt ≤ env.now →
      (enforceRateLimit env).outcome = .allow ∧
      (enforceRateLimit env).stored = some ⟨1, env.now + RATE_LIMIT_WINDOW_MS⟩) := by
  have hW : RATE_LIMIT_WINDOW_MS = 604800000 := by norm_num [RATE_LIMIT_WINDOW_MS]
  obtain ⟨i, gt, gr, sf, rec, now⟩ := env
  obtain ⟨c, ra⟩ := r
  simp only at hRec
  subst hRec
  cases i <;> cases gt <;> cases gr <;> cases sf <;>
    simp [enforceRateLimit, freshWindow, hW, RATE_LIMIT] <;>
      (try split_ifs) <;> (try simp_all) <;> (intros; omega)

/-- Witness for C5: an expired record `{count := 3, resetAt := 50}` at time 100
is replaced by a fresh window, not incremented. -/
theorem c5_witness :
    (enforceRateLimit ⟨false, false, false, false, some ⟨3, 50⟩, 100⟩).outcome =
      .allow ∧
    (enforceRateLimit ⟨false, false, false, false, some ⟨3, 50⟩, 100⟩).stored =
      some ⟨1, 100 + RATE_LIMIT_WINDOW_MS⟩ :=
  (c5_increment_only_in_active_window
    ⟨false, false, false, false, some ⟨3, 50⟩, 100⟩ ⟨3, 50⟩ rfl).2
    rfl rfl rfl rfl (by norm_num)

/-- C6 counterexample: an empty `messages` array is "supplied" but is not used
verbatim — the synthesized two-turn conversation is sent instead (the source
guards on `payload.messages.length > 0`). -/
theorem c6_counterexample :
    (⟨some "hi", some [], none, none, none, none⟩ : Payload).messages = some [] ∧
    (buildOpenAiRequest ⟨some "hi", some [], none, none, none, none⟩ "hi").messages ≠
      ([] : List ChatMessage) := by
  constructor
  · rfl
  · simp [buildOpenAiRequest]

/-- C6 (amended): a supplied NON-EMPTY `messages` array is used verbatim; when
`messages` is absent (or supplied empty), the upstream messages are exactly
`[system, user]` with the system content `systemPrompt || <default>`, and the
temperature is the supplied number, defaulting to `0.7`. -/
theorem c6_messages_verbatim_or_synthesized :
    (∀ (p : Payload) (um : String) (msgs : List ChatMessage),
      p.messages = some msgs → msgs ≠ [] →
      (buildOpenAiRequest p um).messages = msgs) ∧
    (∀ (p : Payload) (um : String),
      p.messages = none ∨ p.messages = some [] →
      (buildOpenAiRequest p um).messages =
        [⟨"system", jsOr p.systemPrompt DEFAULT_SYSTEM_PROMPT⟩, ⟨"user", um⟩] ∧
      (∀ t, p.temperature = some t → (buildOpenAiRequest p um).temperature = t) ∧
      (p.temperature = none → (buildOpenAiRequest p um).temperature = 7 / 10)) := by
  constructor
  · intro p um msgs hm hne
    have hlen : msgs.length > 0 := List.length_pos.mpr hne
    simp [buildOpenAiRequest, hm, hlen]
  · intro p um hm
    have hmsg : (buildOpenAiRequest p um).messages =
        [⟨"system", jsOr p.systemPrompt DEFAULT_SYSTEM_PROMPT⟩, ⟨"user", um⟩] := by
      rcases hm with hm | hm <;> simp [buildOpenAiRequest, hm]
    have htemp : (buildOpenAiRequest p um).temperature = temperatureOf p := by
      rcases hm with hm | hm <;> simp [buildOpenAiRequest, hm]
    refine ⟨hmsg, fun t ht => ?_, fun ht => ?_⟩ <;>
      rw [htemp] <;> simp [temperatureOf, ht]

/-- Witness for C6: a bare `{message: "hi"}` payload synthesizes the default
system prompt and user turn with temperature `0.7`. -/
theorem c6_witness :
    (buildOpenAiRequest ⟨some "hi", none, none, none, none, none⟩ "hi").messages =
      [⟨"system", DEFAULT_SYSTEM_PROMPT⟩, ⟨"user", "hi"⟩] ∧
    (buildOpenAiRequest ⟨some "hi", none, none, none, none, none⟩ "hi").temperature =
      7 / 10 := by
  have h := c6_messages_verbatim_or_synthesized.2
    ⟨some "hi", none, none, none, none, none⟩ "hi" (Or.inl rfl)
  exact ⟨h.1, h.2.2 rfl⟩

/-- C7: a non-2xx upstream response is passed through with its own status
code; the error text is the upstream `error.message` when the payload parses
to an object carrying one, the raw body text when the body is unparseable,
and the status text when the parsed object has no message; a network-level
`fetch` failure instead yields the fixed 502 retry-later response. -/
theorem c7_upstream_error_passthrough :
    (∀ (status : Nat) (statusText : String) (body : BodyVal),
      respOk status = false →
      (handleUpstream (.response status statusText body)).statusCode = status ∧
      (∀ m c, body = .jsonObj (some m) c → m ≠ "" →
        (handleUpstream (.response status statusText body)).body = .failure m) ∧
      (∀ raw, body = .notJson raw → raw ≠ "" →
        (handleUpstream (.response status statusText body)).body = .failure raw) ∧
      (∀ c, body = .jsonObj none c → statusText ≠ "" →
        (handleUpstream (.response status statusText body)).body =
          .failure statusText)) ∧
    handleUpstream .networkFailure =
      ⟨502, .failure "Failed to reach OpenAI. Please try again later."⟩ := by
  constructor
  · intro status statusText body h
    refine ⟨?_, ?_, ?_, ?_⟩
    · simp [handleUpstream, h]
    · intro m c hb hm
      subst hb
      simp [handleUpstream, h, upstreamErrorText, hm]
    · intro raw hb hraw
      subst hb
      simp [handleUpstream, h, upstreamErrorText, hraw]
    · intro c hb hst
      subst hb
      simp [handleUpstream, h, upstreamErrorText, hst]
  · rfl

/-- Witness for C7: a 404 with a parseable `error.message` is passed through
as a 404 carrying that message, and a network failure yields the fixed 502. -/
theorem c7_witness :
    (handleUpstream (.response 404 "Not Found"
      (.jsonObj (some "model not found") none))).statusCode = 404 ∧
    (handleUpstream (.response 404 "Not Found"
      (.jsonObj (some "model not found") none))).body = .failure "model not found" ∧
    handleUpstream .networkFailure =
      ⟨502, .failure "Failed to reach OpenAI. Please try again later."⟩ :=
  have h := c7_upstream_error_passthrough.1 404 "Not Found"
    (.jsonObj (some "model not found") none) (by decide)
  ⟨h.1, h.2.1 "model not found" none rfl (by decide),
    c7_upstream_error_passthrough.2⟩

/-- C9: the over-quota rejection path is read-only — when `enforceRateLimit`
rejects, the stored record is exactly the prior one and no write was
attempted. -/
theorem c9_rejection_read_only (env : RateEnv) (code : Nat) (msg : String)
    (h : (enforceRateLimit env).outcome = .reject code msg) :
    (enforceRateLimit env).stored = env.record ∧
    (enforceRateLimit env).setAttempted = false := by
  obtain ⟨i, gt, gr, sf, rec, now⟩ := env
  revert h
  cases i <;> cases gt <;> cases gr <;> cases sf <;>
    rcases rec with _ | ⟨c, ra⟩ <;>
      simp [enforceRateLimit, freshWindow] <;>
        split_ifs <;> simp_all

/-- Witness for C9: rejecting an over-quota record leaves it untouched. -/
theorem c9_witness :
    (enforceRateLimit ⟨false, false, false, false, some ⟨20, 200⟩, 100⟩).stored =
      some ⟨20, 200⟩ ∧
    (enforceRateLimit ⟨false, false, false, false, some ⟨20, 200⟩, 100⟩).setAttempted =
      false :=
  c9_rejection_read_only ⟨false, false, false, false, some ⟨20, 200⟩, 100⟩ 429
    (rateLimitMessage (daysUntilReset (200 - 100))) (by rfl)

/-- C10: a 2xx upstream response whose body is not valid JSON takes the same
catch branch as a network failure and yields the identical fixed 502
retry-later response — the catch covers every exception raised after the
fetch, not only unreachability. -/
theorem c10_bad_json_same_as_network_failure (status : Nat) (statusText : String)
    (raw : String) (h : respOk status = true) :
    handleUpstream (.response status statusText (.notJson raw)) =
      handleUpstream .networkFailure ∧
    handleUpstream (.response status statusText (.notJson raw)) =
      ⟨502, .failure "Failed to reach OpenAI. Please try again later."⟩ := by
  constructor <;> simp [handleUpstream, h, unreachableReply]

/-- Witness for C10: a 200 response with an HTML error page body becomes the
fixed 502. -/
theorem c10_witness :
    handleUpstream (.response 200 "OK" (.notJson "<html>oops</html>")) =
      handleUpstream .networkFailure ∧
    handleUpstream (.response 200 "OK" (.notJson "<html>oops</html>")) =
      ⟨502, .failure "Failed to reach OpenAI. Please try again later."⟩ :=
  c10_bad_json_same_as_network_failure 200 "OK" "<html>oops</html>" (by decide)

/-- Each 32-bit word renders as exactly eight hex characters. -/
theorem toHex8_length (n : Nat) : (toHex8 n).length = 8 := by
  simp [toHex8, String.length]

/-- A SHA-256 hex digest is always 64 characters long. -/
theorem sha256Hex_length (s : String) : (sha256Hex s).length = 64 := by
  simp [sha256Hex, String.length_append, toHex8_length]

/-- C8 counterexample: the key used against the store is not the SHA-256 hex
hash itself — it carries the `user-` prefix (chat.js line 180). At the
all-defaults request (identity `"anonymous"`) the store key differs from the
bare hash. -/
theorem c8_counterexample :
    storeKey ⟨none, none, none, none, none, none⟩ ⟨none, none, none⟩ ≠
      sha256Hex (userIdentifier ⟨none, none, none, none, none, none⟩
        ⟨none, none, none⟩) := by
  intro h
  have hlen := congrArg String.length h
  rw [show storeKey ⟨none, none, none, none, none, none⟩ ⟨none, none, none⟩ =
        "user-" ++ sha256Hex (userIdentifier ⟨none, none, none, none, none, none⟩
          ⟨none, none, none⟩) from rfl,
      String.length_append, sha256Hex_length] at hlen
  exact absurd hlen (by decide)

/-- C8 (amended): the identity is resolved as trimmed `userId` when it is a
non-empty-after-trim string, else the first `x-forwarded-for` entry (trimmed)
when that header is truthy, else `client-ip`, else `x-real-ip`, else
`"anonymous"`; and the quota key used against the store is `user-` followed
by the SHA-256 hex hash of the resolved identity — never the raw identity
(the key has length 69, so it differs from every identity of another
length). -/
theorem c8_identity_resolution_and_hashed_key (p : Payload) (e : RequestEvent) :
    storeKey p e = "user-" ++ sha256Hex (userIdentifier p e) ∧
    (∀ u, p.userId = some u → jsTrim u ≠ "" → userIdentifier p e = jsTrim u) ∧
    (∀ f, (∀ u, p.userId = some u → jsTrim u = "") → e.xForwardedFor = some f →
      jsTrim (jsSplitFirst f ',') ≠ "" →
      userIdentifier p e = jsTrim (jsSplitFirst f ',')) ∧
    (∀ c, (∀ u, p.userId = some u → jsTrim u = "") →
      (e.xForwardedFor = none ∨ e.xForwardedFor = some "") →
      e.clientIp = some c → c ≠ "" → userIdentifier p e = c) ∧
    (∀ x, (∀ u, p.userId = some u → jsTrim u = "") →
      (e.xForwardedFor = none ∨ e.xForwardedFor = some "") →
      (e.clientIp = none ∨ e.clientIp = some "") →
      e.xRealIp = some x → x ≠ "" → userIdentifier p e = x) ∧
    ((∀ u, p.userId = some u → jsTrim u = "") →
      (e.xForwardedFor = none ∨ e.xForwardedFor = some "") →
      (e.clientIp = none ∨ e.clientIp = some "") →
      (e.xRealIp = none ∨ e.xRealIp = some "") →
      userIdentifier p e = "anonymous") ∧
    ((userIdentifier p e).length ≠ 69 → storeKey p e ≠ userIdentifier p e) := by
  have hkey : storeKey p e = "user-" ++ sha256Hex (userIdentifier p e) := rfl
  refine ⟨hkey, ?_, ?_, ?_, ?_, ?_, ?_⟩
  · intro u hu hne
    simp [userIdentifier, hu, hne]
  · intro f hu hxf hne
    have hf : f ≠ "" := by
      intro h0
      subst h0
      exact hne (by decide)
    cases hpu : p.userId with
    | some u =>
      have ht := hu u hpu
      simp [userIdentifier, hpu, ht, getClientIp, truthy, hxf, hf, jsOr, hne]
    | none =>
      simp [userIdentifier, hpu, getClientIp, truthy, hxf, hf, jsOr, hne]
  · intro c hu hxf hc hcne
    have hanon : jsOr (getClientIp e) "anonymous" = c := by
      rcases hxf with hxf | hxf <;>
        simp [getClientIp, truthy, hxf, hc, jsOr, hcne]
    cases hpu : p.userId with
    | some u =>
      have ht := hu u hpu
      simp [userIdentifier, hpu, ht, hanon]
    | none =>
      simp [userIdentifier, hpu, hanon]
  · intro x hu hxf hcl hx hxne
    have hanon : jsOr (getClientIp e) "anonymous" = x := by
      rcases hxf with hxf | hxf <;> rcases hcl with hcl | hcl <;>
        simp [getClientIp, truthy, hxf, hcl, hx, jsOr, hxne]
    cases hpu : p.userId with
    | some u =>
      have ht := hu u hpu
      simp [userIdentifier, hpu, ht, hanon]
    | none =>
      simp [userIdentifier, hpu, hanon]
  · intro hu hxf hcl hxr
    have hanon : jsOr (getClientIp e) "anonymous" = "anonymous" := by
      rcases hxf with hxf | hxf <;> rcases hcl with hcl | hcl <;>
        rcases hxr with hxr | hxr <;>
          simp [getClientIp, truthy, hxf, hcl, hxr, jsOr]
    cases hpu : p.userId with
    | some u =>
      have ht := hu u hpu
      simp [userIdentifier, hpu, ht, hanon]
    | none =>
      simp [userIdentifier, hpu, hanon]
  · intro hlen heq
    have h69 : (storeKey p e).length = 69 := by
      rw [hkey, String.length_append, sha256Hex_length]
      decide
    exact hlen (heq ▸ h69)

/-- Witness for C8: a whitespace-padded `userId` resolves to its trimmed form
and the store key is the prefixed SHA-256 hex hash of it. -/
theorem c8_witness :
    userIdentifier ⟨none, none, none, none, none, some " alice "⟩ ⟨none, none, none⟩ =
      jsTrim " alice " ∧
    storeKey ⟨none, none, none, none, none, some " alice "⟩ ⟨none, none, none⟩ =
      "user-" ++ sha256Hex (userIdentifier
        ⟨none, none, none, none, none, some " alice "⟩ ⟨none, none, none⟩) :=
  ⟨(c8_identity_resolution_and_hashed_key
      ⟨none, none, none, none, none, some " alice "⟩ ⟨none, none, none⟩).2.1
      " alice " rfl (by decide),
    (c8_identity_resolution_and_hashed_key
      ⟨none, none, none, none, none, some " alice "⟩ ⟨none, none, none⟩).1⟩
